import Mathlib

/-!
# Verification of the bus-tracker core (src/backend/data/app.py)

Shallow embedding of the simulation / geometry / ETA engine of the
bus-tracker prototype.  Python floats are modelled as real numbers; the
single non-finite float value that the program produces (`float("inf")`,
used as the "unreachable" distance sentinel) is modelled by `Option ℝ`
with `none` standing for `inf`.  Python's `int(x)` on a float truncates
toward zero and raises `OverflowError` on an infinite argument, hence
functions applying it to a possibly-infinite value live in `Except`.
-/

open Real

namespace BusTracker

/-- Python's `math.radians`: degrees to radians. -/
noncomputable def radians (deg : ℝ) : ℝ := deg * π / 180

/-- Python's `math.atan2 y x` (the C convention). -/
noncomputable def atan2 (y x : ℝ) : ℝ :=
  if 0 < x then arctan (y / x)
  else if x < 0 then
    (if 0 ≤ y then arctan (y / x) + π else arctan (y / x) - π)
  else
    (if 0 < y then π / 2 else if y < 0 then -(π / 2) else 0)

def EARTH_RADIUS_M : ℝ := 6371000

/-- Embedding of `haversine_m` from app.py (lines 18–24): great-circle distance in
meters between two latitude/longitude pairs given in degrees. -/
noncomputable def haversine_m (lat1 lon1 lat2 lon2 : ℝ) : ℝ :=
  let phi1 := radians lat1
  let phi2 := radians lat2
  let dphi := radians (lat2 - lat1)
  let dlambda := radians (lon2 - lon1)
  let a := Real.sin (dphi / 2) ^ 2 +
    Real.cos phi1 * Real.cos phi2 * Real.sin (dlambda / 2) ^ 2
  let c := 2 * atan2 (Real.sqrt a) (Real.sqrt (1 - a))
  EARTH_RADIUS_M * c

/-! ## Data model (routes.json entries and lookup tables, app.py lines 36–44) -/

structure Stop where
  id : String
  name : String
  lat : ℝ
  lon : ℝ

structure Route where
  id : String
  name : String
  stops : List Stop

/-- Python-dict insertion (`d[k] = v`): the value of an existing key is
replaced in place, otherwise the pair is appended; iteration order is
first-insertion order. -/
def dictInsert {α : Type} (k : String) (v : α) : List (String × α) → List (String × α)
  | [] => [(k, v)]
  | (k', v') :: rest =>
      if k' == k then (k', v) :: rest else (k', v') :: dictInsert k v rest

/-- Table `STOPS_BY_ID`, built by the double loop at app.py lines 40–44. -/
def stopsById (g : List Route) : List (String × Stop) :=
  g.foldl (fun d r => r.stops.foldl (fun d s => dictInsert s.id s d) d) []

/-- Table `ROUTES_BY_ID`, built by the loop at app.py lines 40–41. -/
def routesById (g : List Route) : List (String × Route) :=
  g.foldl (fun d r => dictInsert r.id r d) []

/-- Python's `k in d` for a dict modelled as an association list. -/
def containsKey {α : Type} (d : List (String × α)) (k : String) : Bool :=
  (d.lookup k).isSome

/-- Out-of-range list access placeholder; every use is guarded by an
index bound, mirroring Python where the accesses are in range. -/
def nthStop (l : List Stop) (k : ℕ) : Stop := l.getD k ⟨"", "", 0, 0⟩

/-- Embedding of `next((idx for idx, s in enumerate(stops) if s["id"] == sid), None)`:
index of the first stop with the given id. -/
def idxOfAux (sid : String) : List Stop → ℕ → Option ℕ
  | [], _ => none
  | s :: rest, k => if s.id == sid then some k else idxOfAux sid rest (k + 1)

def idxOfStop (stops : List Stop) (sid : String) : Option ℕ :=
  idxOfAux sid stops 0

/-! ## Simulator state (class BusState, app.py lines 50–64) -/

structure BusState where
  bus_id : String
  route_id : String
  speed_kmph : ℝ
  segment_index : ℕ
  progress_m : ℝ
  lat : ℝ
  lon : ℝ

/-- One tick of `simulator_loop` (app.py lines 89–119) applied to a
single bus, with the bus's route already looked up in `ROUTES_BY_ID`
(the loop reads `ROUTES_BY_ID.get(bus.route_id)`; every simulated bus
is constructed with a valid route id).  The wall-clock timestamp field
is not modelled.  `dt = 1.0` second per tick as in the source. -/
noncomputable def tickBus (route : Route) (bus : BusState) : BusState :=
  let stops := route.stops
  if stops.length < 2 then bus
  else
    let n := stops.length
    let i := bus.segment_index
    let j := (i + 1) % n
    let a := nthStop stops i
    let b := nthStop stops j
    let seg_len_m := haversine_m a.lat a.lon b.lat b.lon
    let speed_mps := bus.speed_kmph * 1000 / 3600
    let dt : ℝ := 1
    let move := speed_mps * dt
    let p := bus.progress_m + move
    let t := if seg_len_m > 0 then min (p / seg_len_m) 1 else 1
    let lat := a.lat + (b.lat - a.lat) * t
    let lon := a.lon + (b.lon - a.lon) * t
    if p ≥ seg_len_m then
      { bus with progress_m := 0, lat := lat, lon := lon, segment_index := j }
    else
      { bus with progress_m := p, lat := lat, lon := lon }

/-! ## Route walking (the while loops of `route_distance_remaining_m`
and `route_path_distance_and_stops`).

Both loops step `idx := (idx+1) % n` until `idx == to_idx`; for indices
below `n` this is exactly `(to_idx + n - idx) % n` iterations, which is
the recursion measure used here. -/

/-- Length of the full segment leaving stop `k`
(`haversine_m(stops[k], stops[(k+1) % n])`). -/
noncomputable def segLen (stops : List Stop) (n k : ℕ) : ℝ :=
  haversine_m (nthStop stops k).lat (nthStop stops k).lon
    (nthStop stops ((k + 1) % n)).lat (nthStop stops ((k + 1) % n)).lon

/-- The summation loop of `route_distance_remaining_m` (lines 150–155),
unrolled over its iteration count. -/
noncomputable def sumSegsFrom (stops : List Stop) (n : ℕ) : ℕ → ℕ → ℝ
  | 0, _ => 0
  | steps + 1, idx => segLen stops n idx + sumSegsFrom stops n steps ((idx + 1) % n)

/-- The walking loop of `route_path_distance_and_stops` (lines 187–193),
accumulating both distance and the appended next-stop ids. -/
noncomputable def walkPath (stops : List Stop) (n : ℕ) : ℕ → ℕ → ℝ × List String
  | 0, _ => (0, [])
  | steps + 1, i =>
      let r := walkPath stops n steps ((i + 1) % n)
      (segLen stops n i + r.1, (nthStop stops ((i + 1) % n)).id :: r.2)

/-- Iteration count of the `while idx != to_idx` loops. -/
def walkSteps (n i toIdx : ℕ) : ℕ := (toIdx + n - i) % n

/-- Embedding of `route_distance_remaining_m` (app.py lines 128–156), with the route
already looked up from `ROUTES_BY_ID[route_id]`.  `none` is the
`float("inf")` sentinel returned when the target stop is not on the
route. -/
noncomputable def route_distance_remaining_m (route : Route) (from_lat from_lon : ℝ)
    (current_segment_index : ℕ) (to_stop_id : String) : Option ℝ :=
  let stops := route.stops
  let n := stops.length
  match idxOfStop stops to_stop_id with
  | none => none
  | some to_idx =>
      let i := current_segment_index
      let j := (i + 1) % n
      let seg_remaining :=
        if 2 ≤ n then
          haversine_m from_lat from_lon (nthStop stops j).lat (nthStop stops j).lon
        else 0
      some (seg_remaining + sumSegsFrom stops n (walkSteps n j to_idx) j)

/-- Embedding of `route_path_distance_and_stops` (app.py lines 176–194): distance
along the route from one stop to another (wrapping) plus the inclusive
stop-id path.  `(none, [])` models the `(float("inf"), [])` failure
return. -/
noncomputable def route_path_distance_and_stops (route : Route)
    (from_stop_id to_stop_id : String) : Option ℝ × List String :=
  let stops := route.stops
  let n := stops.length
  match idxOfStop stops from_stop_id, idxOfStop stops to_stop_id with
  | some idx_from, some idx_to =>
      if 2 ≤ n then
        let r := walkPath stops n (walkSteps n idx_from idx_to) idx_from
        (some r.1, from_stop_id :: r.2)
      else (none, [])
  | _, _ => (none, [])

/-! ## Fare, ETA and nearest-stop -/

/-- Python's `int(x)` on a finite float: truncation toward zero. -/
noncomputable def truncInt (x : ℝ) : ℤ := if 0 ≤ x then ⌊x⌋ else ⌈x⌉

/-- Embedding of `simple_fare` (app.py lines 197–202): base 10 + 2 per started km. -/
noncomputable def simple_fare (distance_m : ℝ) : ℤ :=
  let base : ℤ := 10
  let per_km : ℤ := 2
  let km : ℤ := ⌈distance_m / 1000⌉
  base + per_km * km

/-- Failure modes of the request handlers.  `badRequest`/`notFound` are
the `HTTPException(400/404)` raises; `overflow` is the uncaught
`OverflowError` from `int()`/`math.ceil()` on `float("inf")`;
`typeError` is the uncaught `TypeError` from subscripting `None`. -/
inductive HandlerErr where
  | badRequest : String → HandlerErr
  | notFound : String → HandlerErr
  | overflow : HandlerErr
  | typeError : HandlerErr
deriving DecidableEq

/-- Embedding of `eta_seconds` (app.py lines 159–163).  The distance argument is a
float that may be the `inf` sentinel (`none`); `int(inf / speed_mps)`
raises `OverflowError`, modelled by the `.error` branch. -/
noncomputable def eta_seconds (distance_m : Option ℝ) (speed_kmph : ℝ) :
    Except HandlerErr (Option ℤ) :=
  if speed_kmph ≤ 0 then .ok none
  else
    let speed_mps := speed_kmph * 1000 / 3600
    match distance_m with
    | none => .error .overflow
    | some d => .ok (some (truncInt (d / speed_mps)))

/-- The scan loop of `nearest_stop` (app.py lines 168–172).  The
accumulator `none` models the initial `best_d = float("inf")` state
(any finite distance compares `<` against it). -/
noncomputable def nsScan (lat lon : ℝ) :
    List (String × Stop) → Option (String × Stop × ℝ) → Option (String × Stop × ℝ)
  | [], best => best
  | (sid, s) :: rest, best =>
      let d := haversine_m lat lon s.lat s.lon
      let best' :=
        match best with
        | none => some (sid, s, d)
        | some (bsid, bs, bd) => if d < bd then some (sid, s, d) else some (bsid, bs, bd)
      nsScan lat lon rest best'

/-- Embedding of `nearest_stop` (app.py lines 166–173) over the `STOPS_BY_ID` items.
`none` models the `(None, None, inf)` result on an empty stop table. -/
noncomputable def nearest_stop (stopTable : List (String × Stop)) (lat lon : ℝ) :
    Option (String × Stop × ℝ) :=
  nsScan lat lon stopTable none

/-! ## Request handlers -/

/-- Response of `/api/getETA` (app.py lines 264–270).  The derived
`eta_minutes` display field (a rounding of `eta_seconds`) is not
modelled. -/
structure EtaResp where
  bus_id : String
  stop_id : String
  distance_m : ℤ
  eta_s : Option ℤ
deriving DecidableEq

/-- Embedding of `get_eta` (app.py lines 248–270).  `buses` is the `BUSES` table;
the bus's route is looked up in `routesById g` (`ROUTES_BY_ID` holds
every route id a bus was built with). -/
noncomputable def get_eta (g : List Route) (buses : List (String × BusState))
    (bus_id stop_id : String) : Except HandlerErr EtaResp :=
  match buses.lookup bus_id with
  | none => .error (.notFound "Bus not found")
  | some bus =>
      if containsKey (stopsById g) stop_id then
        match (routesById g).lookup bus.route_id with
        | none => .error (.notFound "route missing")
        | some route =>
            let dist_m := route_distance_remaining_m route bus.lat bus.lon
              bus.segment_index stop_id
            match eta_seconds dist_m bus.speed_kmph with
            | .error e => .error e
            | .ok eta_s =>
                match dist_m with
                | none => .error .overflow
                | some d =>
                    .ok { bus_id := bus_id, stop_id := stop_id,
                          distance_m := truncInt d, eta_s := eta_s }
      else .error (.notFound "Stop not found")

/-- The snapped-start payload of `/api/planTrip` (app.py line 320). -/
structure Snap where
  stop_id : String
  name : String
  distance_m : ℤ

/-- Response of `/api/planTrip` (app.py lines 361–374). -/
structure PlanResult where
  route_id : String
  bus_id : String
  start_stop_id : String
  dest_stop_id : String
  path_stop_ids : List String
  travel_distance_m : ℤ
  bus_to_start_distance_m : ℤ
  bus_to_start_eta_s : Option ℤ
  travel_eta_s : Option ℤ
  total_eta_s : Option ℤ
  fare : ℤ
  snapped_start : Option Snap

/-- Start resolution of `plan_trip` (app.py lines 313–320): keep an
explicit start stop id, otherwise snap `start_lat`/`start_lon` to the
nearest stop.  On an empty stop table `nearest_stop` yields Python's
`(None, None, inf)` and building the snap dict subscripts `None`
(`TypeError`). -/
noncomputable def resolveStart (g : List Route) :
    Option String → Option ℝ → Option ℝ → Except HandlerErr (String × Option Snap)
  | some s, _, _ => .ok (s, none)
  | none, some la, some lo =>
      match nearest_stop (stopsById g) la lo with
      | none => .error .typeError
      | some (sid, s, d) => .ok (sid, some ⟨sid, s.name, truncInt d⟩)
  | none, _, _ => .error (.badRequest "Provide start_stop_id or start_lat/start_lon")

/-- The candidate-route loop of `plan_trip` (app.py lines 326–330):
routes (in `ROUTES_BY_ID` iteration order) whose stop-id list contains
both the resolved start and the destination. -/
def candidateRoutes (g : List Route) (start dest : String) : List (String × Route) :=
  (routesById g).filter fun e =>
    (e.2.stops.map Stop.id).contains start && (e.2.stops.map Stop.id).contains dest

/-- Embedding of `plan_trip` from the chosen route onward (app.py lines 334–374).
`route` is the value stored with key `rid` in `ROUTES_BY_ID` (keys are
unique there, so the later `ROUTES_BY_ID[route_id]` lookups recover
exactly this route).  Evaluation order follows the source: the
`eta_seconds` call on an infinite travel distance raises before the bus
lookup, and `int(bus_to_start_m)` in the response raises when that
distance is infinite. -/
noncomputable def planWithRoute (buses : List (String × BusState)) (rid : String)
    (route : Route) (start dest : String) (snapped : Option Snap) :
    Except HandlerErr PlanResult :=
  let tdp := route_path_distance_and_stops route start dest
  match eta_seconds tdp.1 22 with
  | .error e => .error e
  | .ok travel_eta_s =>
      match buses.lookup (rid ++ "-bus-1") with
      | none => .error (.notFound "No bus available for route")
      | some bus =>
          let bus_to_start_m := route_distance_remaining_m route bus.lat bus.lon
            bus.segment_index start
          match eta_seconds bus_to_start_m bus.speed_kmph with
          | .error e => .error e
          | .ok bus_to_start_eta_s =>
              match tdp.1, bus_to_start_m with
              | some td, some b2s =>
                  .ok { route_id := rid
                        bus_id := rid ++ "-bus-1"
                        start_stop_id := start
                        dest_stop_id := dest
                        path_stop_ids := tdp.2
                        travel_distance_m := truncInt td
                        bus_to_start_distance_m := truncInt b2s
                        bus_to_start_eta_s := bus_to_start_eta_s
                        travel_eta_s := travel_eta_s
                        total_eta_s :=
                          match bus_to_start_eta_s, travel_eta_s with
                          | some x, some y => some (x + y)
                          | _, _ => none
                        fare := simple_fare td
                        snapped_start := snapped }
              | _, _ => .error .overflow

/-- Embedding of `plan_trip` (app.py lines 293–374).  A `none` string parameter
models both an absent query parameter and Python-falsy `""`. -/
noncomputable def plan_trip (g : List Route) (buses : List (String × BusState))
    (start_stop_id dest_stop_id : Option String) (start_lat start_lon : Option ℝ) :
    Except HandlerErr PlanResult :=
  match dest_stop_id with
  | none => .error (.badRequest "dest_stop_id is required")
  | some dest =>
      if containsKey (stopsById g) dest then
        match resolveStart g start_stop_id start_lat start_lon with
        | .error e => .error e
        | .ok (start, snapped) =>
            if containsKey (stopsById g) start then
              match candidateRoutes g start dest with
              | [] => .error (.badRequest
                  "No single route connects start and destination in prototype data")
              | (rid, route) :: _ => planWithRoute buses rid route start dest snapped
            else .error (.notFound "Start stop not found")
      else .error (.notFound "Destination stop not found")

/-! ## Concrete data and auxiliary definitions used by the claim theorems -/

/-- Concrete two-stop route for the C1 witness. -/
def RW1 : Route := ⟨"R1", "Route 1", [⟨"A", "Stop A", 0, 0⟩, ⟨"B", "Stop B", 0, 0⟩]⟩

def BW1 : BusState := ⟨"R1-bus-1", "R1", 22, 0, 0, 0, 0⟩

def aW1 : Stop := nthStop RW1.stops BW1.segment_index

def bW1 : Stop := nthStop RW1.stops ((BW1.segment_index + 1) % RW1.stops.length)

noncomputable def segW1 : ℝ := haversine_m aW1.lat aW1.lon bW1.lat bW1.lon

noncomputable def pW1 : ℝ := BW1.progress_m + BW1.speed_kmph * 1000 / 3600

noncomputable def tW1 : ℝ := if segW1 > 0 then min (pW1 / segW1) 1 else 1

/-- Concrete three-stop route for the C4 witness. -/
def RW4 : Route :=
  ⟨"R4", "Route 4",
    [⟨"A4", "Stop A", 0, 0⟩, ⟨"B4", "Stop B", 0, 0⟩, ⟨"C4s", "Stop C", 0, 0⟩]⟩

/-- Two-route graph for C2: the bus runs on `R2a`; stop `C2s` exists
but lies on route `R2b`. -/
def R2A : Route := ⟨"R2a", "Route 2a", [⟨"A2", "Stop A", 0, 0⟩, ⟨"B2", "Stop B", 0, 0⟩]⟩

def R2B : Route := ⟨"R2b", "Route 2b", [⟨"C2s", "Stop C", 0, 0⟩]⟩

def G2 : List Route := [R2A, R2B]

def BUS2 : BusState := ⟨"R2a-bus-1", "R2a", 22, 0, 0, 0, 0⟩

def BUSES2 : List (String × BusState) := [("R2a-bus-1", BUS2)]

/-- One-route graph for the C7 witness. -/
def RT7 : Route := ⟨"R7", "Route 7", [⟨"A7", "Stop A", 0, 0⟩, ⟨"B7", "Stop B", 0, 0⟩]⟩

def G7 : List Route := [RT7]

/-- One-route graph with a bus for the C3 witness; all stops share the
coordinate (0,0), so every haversine length is 0. -/
def RT3 : Route := ⟨"R3", "Route 3", [⟨"A3", "Stop A", 0, 0⟩, ⟨"B3", "Stop B", 0, 0⟩]⟩

def G3 : List Route := [RT3]

def BUS3 : BusState := ⟨"R3-bus-1", "R3", 22, 0, 0, 0, 0⟩

def BUSES3 : List (String × BusState) := [("R3-bus-1", BUS3)]

/-- The `plan_trip` response on the C3 witness data. -/
def RES3 : PlanResult :=
  ⟨"R3", "R3-bus-1", "A3", "B3", ["A3", "B3"], 0, 0, some 0, some 0, some 0, 10, none⟩

/-- Single-stop route for the C10 counterexample. -/
def RT10 : Route := ⟨"S10", "Route S", [⟨"A10", "Stop A", 0, 0⟩]⟩

def G10 : List Route := [RT10]

def BUS10 : BusState := ⟨"S10-bus-1", "S10", 22, 0, 0, 0, 0⟩

def BUSES10 : List (String × BusState) := [("S10-bus-1", BUS10)]

/-- Two-stop route for the C10 witness. -/
def RT10w : Route := ⟨"W10", "Route W", [⟨"AW", "Stop A", 0, 0⟩, ⟨"BW", "Stop B", 0, 0⟩]⟩

def G10w : List Route := [RT10w]

def BUS10w : BusState := ⟨"W10-bus-1", "W10", 22, 0, 0, 0, 0⟩

def BUSES10w : List (String × BusState) := [("W10-bus-1", BUS10w)]

/-! ## Geometry lemmas -/

lemma radians_zero : radians 0 = 0 := by simp [radians]

lemma atan2_zero_one : atan2 0 1 = 0 := by
  simp [atan2, Real.arctan_zero]

/-- The haversine distance from a point to itself is zero. -/
lemma haversine_self (lat lon : ℝ) : haversine_m lat lon lat lon = 0 := by
  simp [haversine_m, radians_zero, atan2_zero_one, sub_self]

/-! ## C5 -/

/-- C5: `simple_fare d = 10 + 2 * ⌈d / 1000⌉` for every distance
`d ≥ 0`, with `simple_fare 999 = 12`, `simple_fare 1000 = 12`, and
`simple_fare 1001 = 14`. -/
theorem C5_simple_fare :
    (∀ d : ℝ, 0 ≤ d → simple_fare d = 10 + 2 * ⌈d / 1000⌉) ∧
    simple_fare 999 = 12 ∧ simple_fare 1000 = 12 ∧ simple_fare 1001 = 14 := by
  have h999 : ⌈(999 : ℝ) / 1000⌉ = 1 := by rw [Int.ceil_eq_iff]; norm_num
  have h1000 : ⌈(1000 : ℝ) / 1000⌉ = 1 := by rw [Int.ceil_eq_iff]; norm_num
  have h1001 : ⌈(1001 : ℝ) / 1000⌉ = 2 := by rw [Int.ceil_eq_iff]; norm_num
  refine ⟨fun d _ => rfl, ?_, ?_, ?_⟩ <;> simp [simple_fare, h999, h1000, h1001]

/-- C5 witness at `d = 999`. -/
theorem C5_simple_fare_witness :
    (0 : ℝ) ≤ 999 ∧ simple_fare 999 = 10 + 2 * ⌈(999 : ℝ) / 1000⌉ :=
  ⟨by norm_num, C5_simple_fare.1 999 (by norm_num)⟩

/-! ## C6 -/

/-- C6: `eta_seconds` on a finite distance returns `null` exactly when
the speed is ≤ 0, and otherwise the distance divided by the speed in
m/s, truncated toward zero; `eta_seconds(0, 20) = 0` and
`eta_seconds(X, 0)` is `null` for every `X > 0`. -/
theorem C6_eta_seconds :
    (∀ d v : ℝ, (eta_seconds (some d) v = .ok none ↔ v ≤ 0)) ∧
    (∀ d v : ℝ, 0 < v →
      eta_seconds (some d) v = .ok (some (truncInt (d / (v * 1000 / 3600))))) ∧
    eta_seconds (some 0) 20 = .ok (some 0) ∧
    (∀ X : ℝ, 0 < X → eta_seconds (some X) 0 = .ok none) := by
  refine ⟨fun d v => ?_, fun d v hv => ?_, ?_, fun X _ => ?_⟩
  · unfold eta_seconds
    split_ifs with h <;> simp [h]
  · unfold eta_seconds
    rw [if_neg (not_le.mpr hv)]
  · unfold eta_seconds
    rw [if_neg (by norm_num)]
    simp [truncInt]
  · unfold eta_seconds
    rw [if_pos le_rfl]

/-- C6 witness at distance 7, speed 20. -/
theorem C6_eta_seconds_witness :
    (0 : ℝ) < 20 ∧
      eta_seconds (some 7) 20 = .ok (some (truncInt (7 / (20 * 1000 / 3600)))) :=
  ⟨by norm_num, C6_eta_seconds.2.1 7 20 (by norm_num)⟩

/-! ## C1 -/

/-- C1: for a route with at least 2 stops, one simulator tick advances
`progress_m` by exactly `speed_kmph * 1000 / 3600` meters, places the
bus at the componentwise linear interpolation of the current segment's
endpoints at fraction `t = min(progress_m / seg_len, 1)` (`t = 1` when
the segment length is not positive), and advances to segment
`(i+1) mod n` with `progress_m` reset to 0 exactly when the updated
progress reaches the segment length (no overflow carry, one advance at
most); a route with fewer than 2 stops leaves the bus unchanged. -/
theorem C1_simulator_tick (route : Route) (bus : BusState) :
    (route.stops.length < 2 → tickBus route bus = bus) ∧
    (2 ≤ route.stops.length →
      ∀ a b seg p t,
        a = nthStop route.stops bus.segment_index →
        b = nthStop route.stops ((bus.segment_index + 1) % route.stops.length) →
        seg = haversine_m a.lat a.lon b.lat b.lon →
        p = bus.progress_m + bus.speed_kmph * 1000 / 3600 →
        t = (if seg > 0 then min (p / seg) 1 else 1) →
        (tickBus route bus).lat = a.lat + (b.lat - a.lat) * t ∧
        (tickBus route bus).lon = a.lon + (b.lon - a.lon) * t ∧
        (tickBus route bus).bus_id = bus.bus_id ∧
        (tickBus route bus).route_id = bus.route_id ∧
        (tickBus route bus).speed_kmph = bus.speed_kmph ∧
        (seg ≤ p →
          (tickBus route bus).segment_index =
            (bus.segment_index + 1) % route.stops.length ∧
          (tickBus route bus).progress_m = 0) ∧
        (p < seg →
          (tickBus route bus).segment_index = bus.segment_index ∧
          (tickBus route bus).progress_m = p)) := by
  constructor
  · intro h
    unfold tickBus
    rw [if_pos h]
  · intro h2 a b seg p t ha hb hseg hp ht
    subst ha hb hseg hp ht
    have hlt : ¬ route.stops.length < 2 := not_lt.mpr h2
    simp only [tickBus, hlt, if_false, mul_one]
    by_cases hge : bus.progress_m + bus.speed_kmph * 1000 / 3600 ≥
        haversine_m (nthStop route.stops bus.segment_index).lat
          (nthStop route.stops bus.segment_index).lon
          (nthStop route.stops ((bus.segment_index + 1) % route.stops.length)).lat
          (nthStop route.stops ((bus.segment_index + 1) % route.stops.length)).lon
    · rw [if_pos hge]
      refine ⟨rfl, rfl, rfl, rfl, rfl, fun _ => ⟨rfl, rfl⟩, fun hc => ?_⟩
      exact absurd hge (not_le.mpr hc)
    · rw [if_neg hge]
      refine ⟨rfl, rfl, rfl, rfl, rfl, fun hc => ?_, fun _ => ⟨rfl, rfl⟩⟩
      exact absurd hc hge

/-- C1 witness: the tick theorem applied to a concrete two-stop route. -/
theorem C1_simulator_tick_witness :
    2 ≤ RW1.stops.length ∧
    ((tickBus RW1 BW1).lat = aW1.lat + (bW1.lat - aW1.lat) * tW1 ∧
     (tickBus RW1 BW1).lon = aW1.lon + (bW1.lon - aW1.lon) * tW1 ∧
     (tickBus RW1 BW1).bus_id = BW1.bus_id ∧
     (tickBus RW1 BW1).route_id = BW1.route_id ∧
     (tickBus RW1 BW1).speed_kmph = BW1.speed_kmph ∧
     (segW1 ≤ pW1 →
       (tickBus RW1 BW1).segment_index = (BW1.segment_index + 1) % RW1.stops.length ∧
       (tickBus RW1 BW1).progress_m = 0) ∧
     (pW1 < segW1 →
       (tickBus RW1 BW1).segment_index = BW1.segment_index ∧
       (tickBus RW1 BW1).progress_m = pW1)) :=
  ⟨by decide,
   (C1_simulator_tick RW1 BW1).2 (by decide) aW1 bW1 segW1 pW1 tW1 rfl rfl rfl rfl rfl⟩

/-! ## Index and walk lemmas -/

lemma idxOfAux_spec (sid : String) :
    ∀ (l : List Stop) (base j : ℕ), idxOfAux sid l base = some j →
      ∃ m, m < l.length ∧ j = base + m ∧ (nthStop l m).id = sid := by
  intro l
  induction l with
  | nil => intro base j h; simp [idxOfAux] at h
  | cons s rest ih =>
      intro base j h
      rw [idxOfAux] at h
      by_cases hs : (s.id == sid) = true
      · rw [if_pos hs] at h
        have hj : base = j := by injection h
        refine ⟨0, by simp, by omega, ?_⟩
        have hid : s.id = sid := by simpa using hs
        simpa [nthStop, List.getD_cons_zero] using hid
      · rw [if_neg hs] at h
        obtain ⟨m, hm, hj, hid⟩ := ih (base + 1) j h
        refine ⟨m + 1, by simpa using Nat.succ_lt_succ hm, by omega, ?_⟩
        simpa [nthStop, List.getD_cons_succ] using hid

lemma idxOfStop_spec {stops : List Stop} {sid : String} {j : ℕ}
    (h : idxOfStop stops sid = some j) :
    j < stops.length ∧ (nthStop stops j).id = sid := by
  obtain ⟨m, hm, hj, hid⟩ := idxOfAux_spec sid stops 0 j h
  subst hj
  simpa using ⟨hm, hid⟩

lemma sumSegsFrom_eq (stops : List Stop) (n : ℕ) :
    ∀ steps i, i < n →
      sumSegsFrom stops n steps i =
        ∑ k ∈ Finset.range steps, segLen stops n ((i + k) % n) := by
  intro steps
  induction steps with
  | zero => intro i _; simp [sumSegsFrom]
  | succ s ih =>
      intro i hi
      have hn : 0 < n := Nat.lt_of_le_of_lt (Nat.zero_le i) hi
      have hj : (i + 1) % n < n := Nat.mod_lt _ hn
      have h0 : segLen stops n ((i + 0) % n) = segLen stops n i := by
        simp [Nat.mod_eq_of_lt hi]
      have hsum : ∑ k ∈ Finset.range s, segLen stops n (((i + 1) % n + k) % n)
          = ∑ k ∈ Finset.range s, segLen stops n ((i + (k + 1)) % n) := by
        refine Finset.sum_congr rfl fun k _ => ?_
        rw [Nat.mod_add_mod]
        have h' : i + 1 + k = i + (k + 1) := by omega
        rw [h']
      rw [sumSegsFrom, ih _ hj, hsum, Finset.sum_range_succ', h0]
      exact add_comm _ _

lemma walkPath_eq (stops : List Stop) (n : ℕ) :
    ∀ steps i, i < n →
      walkPath stops n steps i =
        (∑ k ∈ Finset.range steps, segLen stops n ((i + k) % n),
         (List.range steps).map fun k => (nthStop stops ((i + k + 1) % n)).id) := by
  intro steps
  induction steps with
  | zero => intro i _; simp [walkPath]
  | succ s ih =>
      intro i hi
      have hn : 0 < n := Nat.lt_of_le_of_lt (Nat.zero_le i) hi
      have hj : (i + 1) % n < n := Nat.mod_lt _ hn
      have h0 : segLen stops n ((i + 0) % n) = segLen stops n i := by
        simp [Nat.mod_eq_of_lt hi]
      have hsum : ∑ k ∈ Finset.range s, segLen stops n (((i + 1) % n + k) % n)
          = ∑ k ∈ Finset.range s, segLen stops n ((i + (k + 1)) % n) := by
        refine Finset.sum_congr rfl fun k _ => ?_
        rw [Nat.mod_add_mod]
        have h' : i + 1 + k = i + (k + 1) := by omega
        rw [h']
      have hids : (List.range s).map
            (fun k => (nthStop stops (((i + 1) % n + k + 1) % n)).id)
          = (List.range s).map fun k => (nthStop stops ((i + (k + 1) + 1) % n)).id := by
        refine List.map_congr_left fun k _ => ?_
        rw [Nat.add_assoc ((i + 1) % n) k 1, Nat.mod_add_mod]
        have h' : i + 1 + (k + 1) = i + (k + 1) + 1 := by omega
        rw [h']
      rw [walkPath, ih _ hj]
      refine Prod.ext ?_ ?_
      · show segLen stops n i + _ = _
        rw [hsum, Finset.sum_range_succ', h0]
        exact add_comm _ _
      · show (nthStop stops ((i + 1) % n)).id :: _ = _
        rw [hids, List.range_succ_eq_map, List.map_cons, List.map_map]
        congr 1

/-! ## C4 -/

/-- C4: for a route with at least 2 stops and stops `a`, `b` on it,
`route_path_distance_and_stops` returns the forward-only wrap-at-end sum
of full segment haversine lengths from `a`'s index to `b`'s index
together with the inclusive forward stop-id path, and
`route_distance_remaining_m` returns the same distance when the
from-coordinate is exactly stop `a`'s coordinate and the current
segment ends at `a` (`(i+1) mod n = index of a`). -/
theorem C4_path_refines_remaining (route : Route) (aId bId : String) (ia ib i : ℕ)
    (hn : 2 ≤ route.stops.length)
    (hia : idxOfStop route.stops aId = some ia)
    (hib : idxOfStop route.stops bId = some ib)
    (hseg : (i + 1) % route.stops.length = ia) :
    route_path_distance_and_stops route aId bId =
      (some (∑ k ∈ Finset.range (walkSteps route.stops.length ia ib),
        segLen route.stops route.stops.length ((ia + k) % route.stops.length)),
       (List.range (walkSteps route.stops.length ia ib + 1)).map
         fun k => (nthStop route.stops ((ia + k) % route.stops.length)).id) ∧
    route_distance_remaining_m route (nthStop route.stops ia).lat
        (nthStop route.stops ia).lon i bId =
      some (∑ k ∈ Finset.range (walkSteps route.stops.length ia ib),
        segLen route.stops route.stops.length ((ia + k) % route.stops.length)) := by
  obtain ⟨hia_lt, hia_id⟩ := idxOfStop_spec hia
  obtain ⟨hib_lt, hib_id⟩ := idxOfStop_spec hib
  constructor
  · simp only [route_path_distance_and_stops, hia, hib, if_pos hn]
    rw [walkPath_eq route.stops route.stops.length _ ia hia_lt]
    refine Prod.ext rfl ?_
    show aId :: _ = _
    rw [List.range_succ_eq_map, List.map_cons, List.map_map]
    congr 1
    rw [show ia + 0 = ia from rfl, Nat.mod_eq_of_lt hia_lt, hia_id]
  · simp only [route_distance_remaining_m, hib, if_pos hn, hseg]
    rw [haversine_self, sumSegsFrom_eq route.stops route.stops.length _ ia hia_lt,
      zero_add]

/-- C4 witness: the refinement theorem applied with `a = "B4"` (index 1),
`b = "A4"` (index 0) and current segment index 0 (whose end stop is
`"B4"`). -/
theorem C4_path_refines_remaining_witness :
    2 ≤ RW4.stops.length ∧
    idxOfStop RW4.stops "B4" = some 1 ∧
    idxOfStop RW4.stops "A4" = some 0 ∧
    (0 + 1) % RW4.stops.length = 1 ∧
    (route_path_distance_and_stops RW4 "B4" "A4" =
      (some (∑ k ∈ Finset.range (walkSteps RW4.stops.length 1 0),
        segLen RW4.stops RW4.stops.length ((1 + k) % RW4.stops.length)),
       (List.range (walkSteps RW4.stops.length 1 0 + 1)).map
         fun k => (nthStop RW4.stops ((1 + k) % RW4.stops.length)).id) ∧
     route_distance_remaining_m RW4 (nthStop RW4.stops 1).lat
        (nthStop RW4.stops 1).lon 0 "A4" =
      some (∑ k ∈ Finset.range (walkSteps RW4.stops.length 1 0),
        segLen RW4.stops RW4.stops.length ((1 + k) % RW4.stops.length))) :=
  ⟨by decide, by decide, by decide, by decide,
   C4_path_refines_remaining RW4 "B4" "A4" 1 0 0 (by decide) (by decide) (by decide)
     (by decide)⟩

/-! ## C2 -/

/-- Value of `eta_seconds` on a positive speed and a finite distance. -/
lemma eta_seconds_of_pos {d v : ℝ} (hv : 0 < v) :
    eta_seconds (some d) v = .ok (some (truncInt (d / (v * 1000 / 3600)))) := by
  unfold eta_seconds
  rw [if_neg (not_le.mpr hv)]

/-- Value of `eta_seconds` on the infinite sentinel and a positive speed models
`int(float("inf"))`, which raises `OverflowError`. -/
lemma eta_seconds_inf_of_pos {v : ℝ} (hv : 0 < v) :
    eta_seconds none v = .error .overflow := by
  unfold eta_seconds
  rw [if_neg (not_le.mpr hv)]

/-- C2: for a target stop that exists but is not on the bus's route,
`route_distance_remaining_m` returns the infinite sentinel — and then
`get_eta` does NOT report a null `eta_seconds`: the `int()` conversion
inside `eta_seconds` raises `OverflowError` (an unhandled 500), refuting
the "null rather than failing" half of the claim. -/
theorem C2_unreachable_target_crashes :
    route_distance_remaining_m R2A 0 0 0 "C2s" = none ∧
    get_eta G2 BUSES2 "R2a-bus-1" "C2s" = .error .overflow := by
  have hidx : idxOfStop R2A.stops "C2s" = none := by decide
  have hrd : ∀ (la lo : ℝ) (si : ℕ),
      route_distance_remaining_m R2A la lo si "C2s" = none := by
    intro la lo si
    simp only [route_distance_remaining_m, hidx]
  refine ⟨hrd 0 0 0, ?_⟩
  have hlook : BUSES2.lookup "R2a-bus-1" = some BUS2 := rfl
  have hck : containsKey (stopsById G2) "C2s" = true := by decide
  have hroute : (routesById G2).lookup BUS2.route_id = some R2A := rfl
  have heta : eta_seconds (route_distance_remaining_m R2A BUS2.lat BUS2.lon
      BUS2.segment_index "C2s") BUS2.speed_kmph = .error .overflow := by
    rw [hrd]
    exact eta_seconds_inf_of_pos (by norm_num [BUS2])
  simp only [get_eta, hlook, hck, if_true, hroute, heta]

/-! ## C7 -/

/-- The only failure `eta_seconds` can raise is the `OverflowError`. -/
lemma eta_seconds_error_eq {d : Option ℝ} {v : ℝ} {e : HandlerErr}
    (h : eta_seconds d v = .error e) : e = .overflow := by
  unfold eta_seconds at h
  by_cases hv : v ≤ 0
  · rw [if_pos hv] at h
    exact Except.noConfusion h
  · rw [if_neg hv] at h
    cases d with
    | none =>
        injection h with h
        exact h.symm
    | some x => exact Except.noConfusion h

/-- Lemma: `planWithRoute` never raises an `InvalidArgument` (400): its
failures are the missing-bus 404 and the `OverflowError`. -/
lemma planWithRoute_ne_badRequest (buses : List (String × BusState)) (rid : String)
    (route : Route) (start dest : String) (snapped : Option Snap) (msg : String) :
    planWithRoute buses rid route start dest snapped ≠ .error (.badRequest msg) := by
  intro h
  unfold planWithRoute at h
  cases heta : eta_seconds (route_path_distance_and_stops route start dest).1 22 with
  | error e =>
      have he := eta_seconds_error_eq heta
      subst he
      simp [heta] at h
  | ok travel_eta =>
      cases hlook : buses.lookup (rid ++ "-bus-1") with
      | none => simp [heta, hlook] at h
      | some bus =>
          cases heta2 : eta_seconds (route_distance_remaining_m route bus.lat bus.lon
              bus.segment_index start) bus.speed_kmph with
          | error e2 =>
              have he := eta_seconds_error_eq heta2
              subst he
              simp [heta, hlook, heta2] at h
          | ok b2s_eta =>
              cases htd : (route_path_distance_and_stops route start dest).1 with
              | none =>
                  simp only [heta, hlook, heta2] at h
                  simp only [htd] at h
                  simp at h
              | some td =>
                  cases hb : route_distance_remaining_m route bus.lat bus.lon
                      bus.segment_index start with
                  | none =>
                      simp only [heta, hlook, heta2] at h
                      simp only [htd, hb] at h
                      simp at h
                  | some b2s =>
                      simp only [heta, hlook, heta2] at h
                      simp only [htd, hb] at h
                      simp at h

/-- When `planWithRoute` succeeds, the reported route id is the id it
was selected with. -/
lemma planWithRoute_ok_route_id {buses : List (String × BusState)} {rid : String}
    {route : Route} {start dest : String} {snapped : Option Snap} {r : PlanResult}
    (h : planWithRoute buses rid route start dest snapped = .ok r) :
    r.route_id = rid := by
  unfold planWithRoute at h
  cases heta : eta_seconds (route_path_distance_and_stops route start dest).1 22 with
  | error e => simp [heta] at h
  | ok travel_eta =>
      cases hlook : buses.lookup (rid ++ "-bus-1") with
      | none => simp [heta, hlook] at h
      | some bus =>
          cases heta2 : eta_seconds (route_distance_remaining_m route bus.lat bus.lon
              bus.segment_index start) bus.speed_kmph with
          | error e2 => simp [heta, hlook, heta2] at h
          | ok b2s_eta =>
              cases htd : (route_path_distance_and_stops route start dest).1 with
              | none =>
                  simp only [heta, hlook, heta2] at h
                  simp only [htd] at h
                  simp at h
              | some td =>
                  cases hb : route_distance_remaining_m route bus.lat bus.lon
                      bus.segment_index start with
                  | none =>
                      simp only [heta, hlook, heta2] at h
                      simp only [htd, hb] at h
                      simp at h
                  | some b2s =>
                      simp only [heta, hlook, heta2] at h
                      simp only [htd, hb] at h
                      injection h with h
                      rw [← h]

/-- C7: with a resolvable start stop and destination stop, `plan_trip`
fails with the "no single route connects" `InvalidArgument` exactly when
no route (in `ROUTES_BY_ID` iteration order) contains both stop ids in
its stop sequence, and when at least one route qualifies the first
qualifying route is the one selected. -/
theorem C7_no_connecting_route (g : List Route) (buses : List (String × BusState))
    (start dest : String)
    (hs : containsKey (stopsById g) start = true)
    (hd : containsKey (stopsById g) dest = true) :
    (plan_trip g buses (some start) (some dest) none none =
        .error (.badRequest
          "No single route connects start and destination in prototype data")
      ↔ ∀ e ∈ routesById g,
          ¬(start ∈ e.2.stops.map Stop.id ∧ dest ∈ e.2.stops.map Stop.id)) ∧
    (∀ rid route rest, candidateRoutes g start dest = (rid, route) :: rest →
      ∀ r, plan_trip g buses (some start) (some dest) none none = .ok r →
        r.route_id = rid) := by
  have hplan : plan_trip g buses (some start) (some dest) none none =
      match candidateRoutes g start dest with
      | [] => .error (.badRequest
          "No single route connects start and destination in prototype data")
      | (rid, route) :: _ => planWithRoute buses rid route start dest none := by
    unfold plan_trip resolveStart
    simp only [hd, hs, if_true]
  have hempty : candidateRoutes g start dest = [] ↔
      ∀ e ∈ routesById g,
        ¬(start ∈ e.2.stops.map Stop.id ∧ dest ∈ e.2.stops.map Stop.id) := by
    unfold candidateRoutes
    rw [List.filter_eq_nil_iff]
    constructor
    · intro h e he hmem
      have := h e he
      simp only [Bool.and_eq_true, not_and] at this
      have h1 : (e.2.stops.map Stop.id).contains start = true := by
        simpa using hmem.1
      have h2 : (e.2.stops.map Stop.id).contains dest = true := by
        simpa using hmem.2
      exact this h1 h2
    · intro h e he hb
      simp only [Bool.and_eq_true] at hb
      refine h e he ⟨?_, ?_⟩
      · simpa using hb.1
      · simpa using hb.2
  constructor
  · rw [hplan, ← hempty]
    constructor
    · intro h
      match hc : candidateRoutes g start dest, h with
      | [], h => rfl
      | (rid, route) :: rest, h =>
          exact absurd h (planWithRoute_ne_badRequest buses rid route start dest none _)
    · intro h
      rw [h]
  · intro rid route rest hc r hr
    rw [hplan, hc] at hr
    exact planWithRoute_ok_route_id hr

/-- C7 witness: the connecting-route theorem applied to a concrete
one-route graph with no buses. -/
theorem C7_no_connecting_route_witness :
    containsKey (stopsById G7) "A7" = true ∧
    containsKey (stopsById G7) "B7" = true ∧
    ((plan_trip G7 [] (some "A7") (some "B7") none none =
        .error (.badRequest
          "No single route connects start and destination in prototype data")
      ↔ ∀ e ∈ routesById G7,
          ¬("A7" ∈ e.2.stops.map Stop.id ∧ "B7" ∈ e.2.stops.map Stop.id)) ∧
     (∀ rid route rest, candidateRoutes G7 "A7" "B7" = (rid, route) :: rest →
       ∀ r, plan_trip G7 [] (some "A7") (some "B7") none none = .ok r →
         r.route_id = rid)) :=
  ⟨by decide, by decide,
   C7_no_connecting_route G7 [] "A7" "B7" (by decide) (by decide)⟩

/-! ## C3 -/

/-- Full characterization of a successful `planWithRoute`. -/
lemma planWithRoute_spec {buses : List (String × BusState)} {rid : String}
    {route : Route} {start dest : String} {snapped : Option Snap} {r : PlanResult}
    (h : planWithRoute buses rid route start dest snapped = .ok r) :
    r.route_id = rid ∧ r.bus_id = rid ++ "-bus-1" ∧ r.start_stop_id = start ∧
    r.dest_stop_id = dest ∧
    ∃ td bus b2s,
      (route_path_distance_and_stops route start dest).1 = some td ∧
      r.path_stop_ids = (route_path_distance_and_stops route start dest).2 ∧
      buses.lookup (rid ++ "-bus-1") = some bus ∧
      route_distance_remaining_m route bus.lat bus.lon bus.segment_index start =
        some b2s ∧
      r.travel_eta_s = some (truncInt (td / (22 * 1000 / 3600))) ∧
      eta_seconds (some b2s) bus.speed_kmph = .ok r.bus_to_start_eta_s ∧
      r.travel_distance_m = truncInt td ∧
      r.bus_to_start_distance_m = truncInt b2s ∧
      r.fare = simple_fare td ∧
      (r.total_eta_s = match r.bus_to_start_eta_s, r.travel_eta_s with
        | some x, some y => some (x + y)
        | _, _ => none) ∧
      r.snapped_start = snapped := by
  unfold planWithRoute at h
  cases heta : eta_seconds (route_path_distance_and_stops route start dest).1 22 with
  | error e => simp [heta] at h
  | ok travel_eta =>
      cases hlook : buses.lookup (rid ++ "-bus-1") with
      | none => simp [heta, hlook] at h
      | some bus =>
          cases heta2 : eta_seconds (route_distance_remaining_m route bus.lat bus.lon
              bus.segment_index start) bus.speed_kmph with
          | error e2 => simp [heta, hlook, heta2] at h
          | ok b2s_eta =>
              cases htd : (route_path_distance_and_stops route start dest).1 with
              | none =>
                  simp only [heta, hlook, heta2] at h
                  simp only [htd] at h
                  simp at h
              | some td =>
                  cases hb : route_distance_remaining_m route bus.lat bus.lon
                      bus.segment_index start with
                  | none =>
                      simp only [heta, hlook, heta2] at h
                      simp only [htd, hb] at h
                      simp at h
                  | some b2s =>
                      simp only [heta, hlook, heta2] at h
                      simp only [htd, hb] at h
                      injection h with h
                      subst h
                      have htr : travel_eta = some (truncInt (td / (22 * 1000 / 3600))) := by
                        rw [htd, eta_seconds_of_pos (by norm_num)] at heta
                        injection heta with heta
                        exact heta.symm
                      have hbe : eta_seconds (some b2s) bus.speed_kmph =
                          .ok b2s_eta := by
                        rw [hb] at heta2
                        exact heta2
                      refine ⟨rfl, rfl, rfl, rfl, td, bus, b2s, ?_, ?_, ?_, ?_,
                        ?_, ?_, ?_, ?_, ?_, ?_, ?_⟩
                      · exact rfl
                      · exact rfl
                      · exact rfl
                      · exact hb
                      · exact htr
                      · exact hbe
                      · exact rfl
                      · exact rfl
                      · exact rfl
                      · exact rfl
                      · exact rfl

/-- C3: every successful `plan_trip` result has
`total_eta_s = bus_to_start_eta_s + travel_eta_s` (null if either is
null), a travel ETA computed from the start→destination path distance
at the fixed 22 km/h cruising speed, a bus-to-start ETA computed from
the assigned bus's live state at the bus's own speed, and a fare
computed from the travel distance only. -/
theorem C3_plan_trip_totals (g : List Route) (buses : List (String × BusState))
    (start_stop_id dest_stop_id : Option String) (start_lat start_lon : Option ℝ)
    (r : PlanResult)
    (h : plan_trip g buses start_stop_id dest_stop_id start_lat start_lon = .ok r) :
    (r.total_eta_s = match r.bus_to_start_eta_s, r.travel_eta_s with
      | some x, some y => some (x + y)
      | _, _ => none) ∧
    r.bus_id = r.route_id ++ "-bus-1" ∧
    ∃ route rest td bus b2s,
      candidateRoutes g r.start_stop_id r.dest_stop_id = (r.route_id, route) :: rest ∧
      (route_path_distance_and_stops route r.start_stop_id r.dest_stop_id).1 =
        some td ∧
      r.travel_eta_s = some (truncInt (td / (22 * 1000 / 3600))) ∧
      r.fare = simple_fare td ∧
      buses.lookup r.bus_id = some bus ∧
      route_distance_remaining_m route bus.lat bus.lon bus.segment_index
        r.start_stop_id = some b2s ∧
      eta_seconds (some b2s) bus.speed_kmph = .ok r.bus_to_start_eta_s := by
  unfold plan_trip at h
  cases dest_stop_id with
  | none => simp at h
  | some dest =>
      cases hck : containsKey (stopsById g) dest with
      | false => simp [hck] at h
      | true =>
          simp only [hck, if_true] at h
          cases hres : resolveStart g start_stop_id start_lat start_lon with
          | error e => simp [hres] at h
          | ok p =>
              obtain ⟨start, snapped⟩ := p
              simp only [hres] at h
              cases hck2 : containsKey (stopsById g) start with
              | false => simp [hck2] at h
              | true =>
                  simp only [hck2, if_true] at h
                  cases hc : candidateRoutes g start dest with
                  | nil => simp [hc] at h
                  | cons e rest =>
                      obtain ⟨rid, route⟩ := e
                      simp only [hc] at h
                      obtain ⟨hrid, hbusid, hstart, hdest, td, bus, b2s, htd, hpath,
                        hlook, hb, htr, hbe, _, _, hfare, htotal, _⟩ :=
                        planWithRoute_spec h
                      refine ⟨htotal, by rw [hbusid, hrid], route, rest, td, bus, b2s,
                        ?_, ?_, htr, hfare, ?_, ?_, hbe⟩
                      · rw [hstart, hdest, hrid]
                        exact hc
                      · rw [hstart, hdest]
                        exact htd
                      · rw [hbusid]
                        exact hlook
                      · rw [hstart]
                        exact hb

/-- Concrete evaluation of `plan_trip` on the C3 witness data. -/
lemma plan_trip_G3_eval :
    plan_trip G3 BUSES3 (some "A3") (some "B3") none none = .ok RES3 := by
  have h0 : plan_trip G3 BUSES3 (some "A3") (some "B3") none none =
      planWithRoute BUSES3 "R3" RT3 "A3" "B3" none := rfl
  have hseg0 : segLen RT3.stops 2 0 = 0 := haversine_self 0 0
  have hseg1 : segLen RT3.stops 2 1 = 0 := haversine_self 0 0
  have htd : (route_path_distance_and_stops RT3 "A3" "B3").1 =
      some (segLen RT3.stops 2 0 + 0) := rfl
  have htd0 : (route_path_distance_and_stops RT3 "A3" "B3").1 = some 0 := by
    rw [htd, hseg0, add_zero]
  have hpath : (route_path_distance_and_stops RT3 "A3" "B3").2 = ["A3", "B3"] := rfl
  have hb2s : route_distance_remaining_m RT3 BUS3.lat BUS3.lon BUS3.segment_index
      "A3" = some (haversine_m BUS3.lat BUS3.lon (nthStop RT3.stops 1).lat
        (nthStop RT3.stops 1).lon + (segLen RT3.stops 2 1 + 0)) := rfl
  have hx : haversine_m BUS3.lat BUS3.lon (nthStop RT3.stops 1).lat
      (nthStop RT3.stops 1).lon = 0 := haversine_self 0 0
  have hb2s0 : route_distance_remaining_m RT3 BUS3.lat BUS3.lon BUS3.segment_index
      "A3" = some 0 := by
    rw [hb2s, hx, hseg1]
    norm_num
  have htrunc : truncInt 0 = 0 := by norm_num [truncInt]
  have heta1 : eta_seconds (route_path_distance_and_stops RT3 "A3" "B3").1 22 =
      .ok (some 0) := by
    rw [htd0, eta_seconds_of_pos (by norm_num)]
    rw [zero_div, htrunc]
  have heta2 : eta_seconds (route_distance_remaining_m RT3 BUS3.lat BUS3.lon
      BUS3.segment_index "A3") BUS3.speed_kmph = .ok (some 0) := by
    rw [hb2s0, eta_seconds_of_pos (show (0:ℝ) < BUS3.speed_kmph by norm_num [BUS3])]
    rw [zero_div, htrunc]
  have hlook : BUSES3.lookup ("R3" ++ "-bus-1") = some BUS3 := rfl
  have hfare : simple_fare 0 = 10 := by norm_num [simple_fare]
  have heta1' : eta_seconds (some (0:ℝ)) 22 = .ok (some 0) := by
    rw [eta_seconds_of_pos (by norm_num), zero_div, htrunc]
  have heta2' : eta_seconds (some (0:ℝ)) BUS3.speed_kmph = .ok (some 0) := by
    rw [eta_seconds_of_pos (show (0:ℝ) < BUS3.speed_kmph by norm_num [BUS3])]
    rw [zero_div, htrunc]
  rw [h0]
  unfold planWithRoute
  simp only [heta1, hlook, heta2, htd0, hb2s0, hpath, htrunc, hfare]
  simp only [heta1', heta2']
  simp [RES3]

/-- C3 witness: the totals theorem applied to the concrete plan. -/
theorem C3_plan_trip_totals_witness :
    plan_trip G3 BUSES3 (some "A3") (some "B3") none none = .ok RES3 ∧
    ((RES3.total_eta_s = match RES3.bus_to_start_eta_s, RES3.travel_eta_s with
      | some x, some y => some (x + y)
      | _, _ => none) ∧
     RES3.bus_id = RES3.route_id ++ "-bus-1" ∧
     ∃ route rest td bus b2s,
       candidateRoutes G3 RES3.start_stop_id RES3.dest_stop_id =
         (RES3.route_id, route) :: rest ∧
       (route_path_distance_and_stops route RES3.start_stop_id
         RES3.dest_stop_id).1 = some td ∧
       RES3.travel_eta_s = some (truncInt (td / (22 * 1000 / 3600))) ∧
       RES3.fare = simple_fare td ∧
       BUSES3.lookup RES3.bus_id = some bus ∧
       route_distance_remaining_m route bus.lat bus.lon bus.segment_index
         RES3.start_stop_id = some b2s ∧
       eta_seconds (some b2s) bus.speed_kmph = .ok RES3.bus_to_start_eta_s) :=
  ⟨plan_trip_G3_eval,
   C3_plan_trip_totals G3 BUSES3 (some "A3") (some "B3") none none RES3
     plan_trip_G3_eval⟩

/-! ## C10 -/

lemma idxOfAux_of_mem (sid : String) :
    ∀ (l : List Stop) (base : ℕ), sid ∈ l.map Stop.id →
      ∃ k, idxOfAux sid l base = some k := by
  intro l
  induction l with
  | nil => intro base h; simp at h
  | cons s rest ih =>
      intro base h
      rw [idxOfAux]
      by_cases hs : (s.id == sid) = true
      · rw [if_pos hs]
        exact ⟨base, rfl⟩
      · rw [if_neg hs]
        apply ih
        simp only [List.map_cons, List.mem_cons] at h
        rcases h with h | h
        · exact absurd (by simp [h]) hs
        · exact h

lemma idxOfStop_of_mem {stops : List Stop} {sid : String}
    (h : sid ∈ stops.map Stop.id) : ∃ k, idxOfStop stops sid = some k :=
  idxOfAux_of_mem sid stops 0 h

/-- C10 (amended): when the resolved start equals the destination, the
stop is in the stop table, the first qualifying route has at least two
stops, and that route's bus exists, `route_path_distance_and_stops`
returns distance 0 with the single-stop path, and `plan_trip` succeeds
with zero travel distance/ETA, base fare 10, and a total ETA equal to
the bus-to-start component alone. -/
theorem C10_start_eq_dest (g : List Route) (buses : List (String × BusState))
    (s rid : String) (route : Route) (rest : List (String × Route)) (bus : BusState)
    (hck : containsKey (stopsById g) s = true)
    (hcand : candidateRoutes g s s = (rid, route) :: rest)
    (hn : 2 ≤ route.stops.length)
    (hbus : buses.lookup (rid ++ "-bus-1") = some bus) :
    route_path_distance_and_stops route s s = (some 0, [s]) ∧
    ∃ r, plan_trip g buses (some s) (some s) none none = .ok r ∧
      r.travel_distance_m = 0 ∧
      r.travel_eta_s = some 0 ∧
      r.fare = 10 ∧
      r.path_stop_ids = [s] ∧
      r.total_eta_s = r.bus_to_start_eta_s := by
  have hmem : s ∈ route.stops.map Stop.id := by
    have hin : (rid, route) ∈ candidateRoutes g s s := by
      rw [hcand]
      exact List.mem_cons_self _ _
    unfold candidateRoutes at hin
    have hp := (List.mem_filter.mp hin).2
    simp only [Bool.and_eq_true] at hp
    simpa using hp.1
  obtain ⟨k, hk⟩ := idxOfStop_of_mem hmem
  have hsteps : walkSteps route.stops.length k k = 0 := by
    unfold walkSteps
    rw [show k + route.stops.length - k = route.stops.length from by omega,
      Nat.mod_self]
  have hrp : route_path_distance_and_stops route s s = (some 0, [s]) := by
    simp only [route_path_distance_and_stops, hk, if_pos hn, hsteps, walkPath]
  refine ⟨hrp, ?_⟩
  have hplan : plan_trip g buses (some s) (some s) none none =
      planWithRoute buses rid route s s none := by
    unfold plan_trip resolveStart
    simp only [hck, if_true, hcand]
  have htd : (route_path_distance_and_stops route s s).1 = some 0 := by rw [hrp]
  have hpath2 : (route_path_distance_and_stops route s s).2 = [s] := by rw [hrp]
  have htrunc : truncInt 0 = 0 := by norm_num [truncInt]
  have heta1 : eta_seconds (route_path_distance_and_stops route s s).1 22 =
      .ok (some 0) := by
    rw [htd, eta_seconds_of_pos (by norm_num), zero_div, htrunc]
  obtain ⟨b2sv, hb2s⟩ : ∃ v, route_distance_remaining_m route bus.lat bus.lon
      bus.segment_index s = some v := by
    simp only [route_distance_remaining_m, hk]
    exact ⟨_, rfl⟩
  obtain ⟨o, ho⟩ : ∃ o, eta_seconds (some b2sv) bus.speed_kmph = .ok o := by
    unfold eta_seconds
    split_ifs
    · exact ⟨none, rfl⟩
    · exact ⟨_, rfl⟩
  obtain ⟨r, hr⟩ : ∃ r, plan_trip g buses (some s) (some s) none none = .ok r := by
    rw [hplan]
    unfold planWithRoute
    simp only [heta1]
    simp only [hbus]
    simp only [hb2s]
    simp only [ho]
    simp only [htd]
    exact ⟨_, rfl⟩
  have hr' := hr
  rw [hplan] at hr'
  obtain ⟨_, _, _, _, td, bus', b2s', htd', hpathr, _, _, htr', _, htdm, _, hfare',
    htotal', _⟩ := planWithRoute_spec hr'
  have htd0' : td = 0 := by
    rw [htd] at htd'
    injection htd' with htd'
    exact htd'.symm
  subst htd0'
  have htr0 : r.travel_eta_s = some 0 := by
    rw [htr', zero_div, htrunc]
  refine ⟨r, hr, ?_, htr0, ?_, ?_, ?_⟩
  · rw [htdm, htrunc]
  · rw [hfare']
    norm_num [simple_fare]
  · rw [hpathr, hpath2]
  · rw [htr0] at htotal'
    cases hcase : r.bus_to_start_eta_s with
    | none =>
        rw [hcase] at htotal'
        exact htotal'
    | some x =>
        rw [hcase] at htotal'
        rw [htotal']
        show some (x + 0) = some x
        rw [add_zero]

/-- C10 counterexample: when the (single) qualifying route has only one
stop, `route_path_distance_and_stops` returns the `(inf, [])` failure
value rather than `(0, [stop])`, and `plan_trip` raises `OverflowError`
instead of succeeding. -/
theorem C10_single_stop_route_fails :
    route_path_distance_and_stops RT10 "A10" "A10" ≠ (some 0, ["A10"]) ∧
    plan_trip G10 BUSES10 (some "A10") (some "A10") none none =
      .error .overflow := by
  constructor
  · have h : route_path_distance_and_stops RT10 "A10" "A10" = (none, []) := rfl
    rw [h]
    simp
  · have h0 : plan_trip G10 BUSES10 (some "A10") (some "A10") none none =
        planWithRoute BUSES10 "S10" RT10 "A10" "A10" none := rfl
    have htd : (route_path_distance_and_stops RT10 "A10" "A10").1 = none := rfl
    have heta : eta_seconds (route_path_distance_and_stops RT10 "A10" "A10").1 22 =
        .error .overflow := by
      rw [htd]
      exact eta_seconds_inf_of_pos (by norm_num)
    rw [h0]
    unfold planWithRoute
    simp only [heta]

/-- C10 witness: the amended theorem applied to a concrete same-start
same-destination trip on a two-stop route. -/
theorem C10_start_eq_dest_witness :
    containsKey (stopsById G10w) "AW" = true ∧
    candidateRoutes G10w "AW" "AW" = [("W10", RT10w)] ∧
    2 ≤ RT10w.stops.length ∧
    BUSES10w.lookup ("W10" ++ "-bus-1") = some BUS10w ∧
    (route_path_distance_and_stops RT10w "AW" "AW" = (some 0, ["AW"]) ∧
     ∃ r, plan_trip G10w BUSES10w (some "AW") (some "AW") none none = .ok r ∧
       r.travel_distance_m = 0 ∧
       r.travel_eta_s = some 0 ∧
       r.fare = 10 ∧
       r.path_stop_ids = ["AW"] ∧
       r.total_eta_s = r.bus_to_start_eta_s) :=
  ⟨by decide, rfl, by decide, rfl,
   C10_start_eq_dest G10w BUSES10w "AW" "W10" RT10w [] BUS10w (by decide) rfl
     (by decide) rfl⟩

end BusTracker
